import Mathlib

/-!
Verification of the pescea repository (Escea fireplace driver) against its
natural-language specification.  The definitions below are a shallow
embedding of `src/pescea/message.py`, `src/pescea/datagram.py` and
`src/pescea/controller.py`; byte buffers are `List Nat`, timestamps are `Int`
(the source uses Python floats from `time.time()`; the paths modelled only add
and compare timestamps, so integer-valued times carry the same content), and fallible code
returns `Except`.
-/

namespace Pescea

/-! ## message.py: identifiers and constants -/

/-- message.py:50-59 `FireplaceMessage.CommandID`. -/
inductive CommandID
  | STATUS_PLEASE
  | POWER_ON
  | POWER_OFF
  | SEARCH_FOR_FIRES
  | FAN_BOOST_ON
  | FAN_BOOST_OFF
  | FLAME_EFFECT_ON
  | FLAME_EFFECT_OFF
  | NEW_SET_TEMP
deriving DecidableEq, Repr

/-- message.py:50-59: the byte value of each command identifier. -/
def CommandID.value : CommandID → Nat
  | .STATUS_PLEASE => 0x31
  | .POWER_ON => 0x39
  | .POWER_OFF => 0x3a
  | .SEARCH_FOR_FIRES => 0x50
  | .FAN_BOOST_ON => 0x37
  | .FAN_BOOST_OFF => 0x38
  | .FLAME_EFFECT_ON => 0x56
  | .FLAME_EFFECT_OFF => 0x55
  | .NEW_SET_TEMP => 0x57

/-- message.py:61-70 `FireplaceMessage.ResponseID`. -/
inductive ResponseID
  | STATUS
  | POWER_ON_ACK
  | POWER_OFF_ACK
  | FAN_BOOST_ON_ACK
  | FAN_BOOST_OFF_ACK
  | FLAME_EFFECT_ON_ACK
  | FLAME_EFFECT_OFF_ACK
  | NEW_SET_TEMP_ACK
  | I_AM_A_FIRE
deriving DecidableEq, Repr

/-- message.py:61-70: the byte value of each response identifier. -/
def ResponseID.value : ResponseID → Nat
  | .STATUS => 0x80
  | .POWER_ON_ACK => 0x8d
  | .POWER_OFF_ACK => 0x8f
  | .FAN_BOOST_ON_ACK => 0x8a
  | .FAN_BOOST_OFF_ACK => 0x8b
  | .FLAME_EFFECT_ON_ACK => 0x61
  | .FLAME_EFFECT_OFF_ACK => 0x60
  | .NEW_SET_TEMP_ACK => 0x66
  | .I_AM_A_FIRE => 0x99

/-- message.py:72-74: acceptable limits when commanding NEW_SET_TEMP. -/
def MIN_SET_TEMP : Int := 4

/-- message.py:72-74: acceptable limits when commanding NEW_SET_TEMP. -/
def MAX_SET_TEMP : Int := 30

/-- message.py:17. -/
def MESSAGE_LENGTH : Nat := 15

/-- message.py:46. -/
def MESSAGE_START_BYTE : Nat := 0x47

/-- message.py:47. -/
def MESSAGE_END_BYTE : Nat := 0x46

/-! ## message.py: encoding (the `command is not None` branch of
`FireplaceMessage.__init__`, lines 97-130) -/

/-- Failure modes of the encode branch.  `missingSetTemp` is the explicit
`raise ValueError` at message.py:123 when NEW_SET_TEMP is built without a
temperature.  `byteOutOfRange` is CPython's own `ValueError` from assigning a
value outside 0..255 to a `bytearray` item at message.py:121 (the only range
constraint the encode branch applies to the temperature). -/
inductive EncodeError
  | missingSetTemp
  | byteOutOfRange
deriving DecidableEq, Repr

/-- Builds the 15-byte buffer of message.py:110-130: offset 0 start byte,
offset 1 identifier, offset 2 data length, offsets 3-12 data (first data byte
`d0`, rest zero-filled), offset 13 CRC, offset 14 end byte.  The CRC is the
sum of offsets 1..11 modulo 255 (`range(MSG_OFFSET_ID, MSG_OFFSET_DATA_END)`
= `range(1, 12)` at message.py:127-129). -/
def buildMessage (id dataLength d0 : Nat) : List Nat :=
  let pre : List Nat :=
    [MESSAGE_START_BYTE, id, dataLength, d0, 0, 0, 0, 0, 0, 0, 0, 0, 0]
  let crc : Nat := ((pre.drop 1).take 11).sum % 255
  pre ++ [crc, MESSAGE_END_BYTE]

/-- message.py:97-130: create a command (outgoing) message.  Only
NEW_SET_TEMP carries data (one byte, the desired temperature); the branch
performs no comparison against MIN_SET_TEMP / MAX_SET_TEMP — the only
failure conditions are a missing temperature and the bytearray item range. -/
def FireplaceMessage.encode (command : CommandID) (set_temp : Option Int) :
    Except EncodeError (List Nat) :=
  if command = CommandID.NEW_SET_TEMP then
    match set_temp with
    | none => .error .missingSetTemp
    | some t =>
        if t < 0 ∨ 255 < t then .error .byteOutOfRange
        else .ok (buildMessage CommandID.NEW_SET_TEMP.value 1 t.toNat)
  else .ok (buildMessage command.value 0 0)

/-! ## message.py: decoding (the `incoming is not None` branch of
`FireplaceMessage.__init__`, lines 132-198) -/

/-- Failure modes of the decode branch, in the order the interpreter reaches
them.  `initDataArity`: message.py:138 executes `self._initialise_data(self)`,
but `_initialise_data` (message.py:76) takes only `self`, so the call raises
`TypeError` unconditionally — before any validation runs.  The remaining
constructors mirror the later raise sites (length at :143, which compares the
bound method `incoming.count` against 15 and therefore could never pass;
start/end markers at :147/:151; CRC at :161; the `ResponseID(...)` lookup at
:166, which has no case for command identifiers; data length at
:170/:187/:196). -/
inductive DecodeError
  | initDataArity
  | lengthCheck
  | startByte
  | endByte
  | crcMismatch
  | unknownResponseID
  | dataLength
deriving DecidableEq, Repr

/-- Decoded view of a response frame (the fields the decode branch would
populate). -/
structure Resp where
  id : ResponseID
deriving DecidableEq, Repr

/-- message.py:132-198: create a response message from an incoming buffer.
The very first statement of the branch, `self._initialise_data(self)`
(message.py:138), passes a spurious extra argument to a method of no
arguments, so every call raises `TypeError` there; no input reaches the
length / marker / CRC / identifier checks.  (Even with that line repaired,
message.py:143 compares the bound method `incoming.count` with the integer
15, which is unequal for every buffer, so decoding would still fail on all
inputs.) -/
def FireplaceMessage.decode (_incoming : List Nat) : Except DecodeError Resp :=
  .error .initDataArity

/-! ## message.py: I_AM_A_FIRE payload extraction (lines 186-193)

The slices the source takes from the incoming buffer, named so they can be
compared with the documented layout (message.py:39-43: serial = data bytes
1..4, PIN = data bytes 5..6; i.e. buffer offsets 3..6 and 7..8). -/

/-- Big-endian unsigned interpretation of a byte list (what
`int.from_bytes(..., byteorder='big', signed=False)` computes). -/
def bytesBE (bs : List Nat) : Nat :=
  bs.foldl (fun a b => a * 256 + b) 0

/-- message.py:190-191: the serial is read from the slice
`incoming[3+0 : 3+0+3]` — buffer offsets 3, 4 and 5: only THREE bytes. -/
def iAmAFireSerial (incoming : List Nat) : Nat :=
  bytesBE ((incoming.drop 3).take 3)

/-- message.py:192-193: the PIN is read from the slice
`incoming[3+4 : 3+4+1]` — buffer offset 7 only: a single byte. -/
def iAmAFirePin (incoming : List Nat) : Nat :=
  bytesBE ((incoming.drop 7).take 1)

/-- Fixed-width big-endian byte encoding of a natural number (helper for
building wire frames carrying multi-byte fields). -/
def natToBytesBE : Nat → Nat → List Nat
  | 0, _ => []
  | w + 1, n => natToBytesBE w (n / 256) ++ [n % 256]

/-- A well-formed I_AM_A_FIRE frame per the wire format (message.py:39-43 and
spec.md section 6): identifier 0x99, data length 6, serial in the first four
data bytes big-endian, PIN in the next two, zero fill, CRC over offsets
1..11, end byte. -/
def iAmAFireFrame (serial pin : Nat) : List Nat :=
  let payload := natToBytesBE 4 serial ++ natToBytesBE 2 pin
  let pre : List Nat :=
    [MESSAGE_START_BYTE, ResponseID.I_AM_A_FIRE.value, 6] ++ payload ++
      [0, 0, 0, 0]
  let crc : Nat := ((pre.drop 1).take 11).sum % 255
  pre ++ [crc, MESSAGE_END_BYTE]

/-! ## message.py: expected_response (lines 253-274) -/

/-- message.py:253-274 `FireplaceMessage.expected_response`: the one
legitimate acknowledgement identifier of each command. -/
def expected_response : CommandID → ResponseID
  | .STATUS_PLEASE => .STATUS
  | .POWER_ON => .POWER_ON_ACK
  | .POWER_OFF => .POWER_OFF_ACK
  | .SEARCH_FOR_FIRES => .I_AM_A_FIRE
  | .FAN_BOOST_ON => .FAN_BOOST_ON_ACK
  | .FAN_BOOST_OFF => .FAN_BOOST_OFF_ACK
  | .FLAME_EFFECT_ON => .FLAME_EFFECT_ON_ACK
  | .FLAME_EFFECT_OFF => .FLAME_EFFECT_OFF_ACK
  | .NEW_SET_TEMP => .NEW_SET_TEMP_ACK

/-! ## datagram.py: FireplaceDatagram.send_command (lines 59-120)

The transport is modelled by its observable exchange semantics: the inbound
datagrams that arrive within the request window are given as a list of
`(source address, decode outcome)` pairs; since `FireplaceMessage(incoming=…)`
is what `datagram_received` calls, each arrival carries the `Except` that
decode produces for it.  Addresses are abstract (`Nat`). -/

/-- State of one receive window: the `responses` dict (datagram.py:70,
modelled as an assoc list in insertion order, with dict-style overwrite on a
repeated key) and whether the protocol has closed its transport
(datagram.py:90; `connection_lost` then resolves `on_complete` at :97-98). -/
structure RecvState where
  responses : List (Nat × ResponseID)
  closed : Bool
deriving DecidableEq, Repr

/-- Python dict assignment `responses[addr] = response`: overwrite the
existing entry for the key, else append. -/
def updateAssoc (m : List (Nat × ResponseID)) (k : Nat) (v : ResponseID) :
    List (Nat × ResponseID) :=
  if m.any (fun p => p.1 = k) then
    m.map (fun p => if p.1 = k then (k, v) else p)
  else m ++ [(k, v)]

/-- datagram.py:82-90 `_DatagramProtocol.datagram_received`.  A decode
failure is an exception escaping the callback: asyncio logs it and drops the
datagram, leaving the state unchanged (the transport stays open).  A decoded
response is always stored in `responses` — the identifier mismatch against
`expected_response` at :84-87 only emits a log line (the returned Bool) — and
for any command other than SEARCH_FOR_FIRES the transport is then closed
(:89-90), ending the wait.  -/
def datagramReceived (command : CommandID) (st : RecvState) (addr : Nat)
    (decoded : Except DecodeError ResponseID) : RecvState × Bool :=
  match decoded with
  | .error _ => (st, false)
  | .ok rid =>
      let logged : Bool := rid ≠ expected_response command
      let st' : RecvState :=
        { st with responses := updateAssoc st.responses addr rid }
      let st'' : RecvState :=
        if command ≠ CommandID.SEARCH_FOR_FIRES then { st' with closed := true }
        else st'
      (st'', logged)

/-- Deliver the arrivals of the window in order; once the transport is
closed, later datagrams are no longer delivered to the protocol. -/
def processEvents (command : CommandID) :
    RecvState → List (Nat × Except DecodeError ResponseID) → RecvState
  | st, [] => st
  | st, e :: es =>
      if st.closed then st
      else processEvents command (datagramReceived command st e.1 e.2).1 es

/-- Failure of `send_command` as seen by its caller.  A window that ends by
timeout raises: under `async_timeout`, expiry raises `asyncio.TimeoutError`
out of the `async with` block (datagram.py:101-108), which the handler at
:119-120 converts to `ConnectionError("Unable to send UDP")` (the
`if cm.expired` branch at :110-113 is unreachable, and even it raises
`TimeoutError` unconditionally, without consulting `responses`). -/
inductive SendError
  | connectionError
deriving DecidableEq, Repr

/-- datagram.py:59-120 `FireplaceDatagram.send_command`, as a function of the
arrivals within the request window.  The only way the call returns normally
is that the protocol closed the transport (a non-SEARCH command received a
decodable datagram): `connection_lost` resolves `on_complete`, the block
exits before the deadline and the accumulated `responses` dict is returned
(:115-117).  If the window runs out with the transport still open — always
the case for SEARCH_FOR_FIRES, whose receive path never closes it — the call
raises, regardless of how many responses were accumulated. -/
def sendCommand (command : CommandID)
    (events : List (Nat × Except DecodeError ResponseID)) :
    Except SendError (List (Nat × ResponseID)) :=
  let final := processEvents command ⟨[], false⟩ events
  if final.closed then .ok final.responses
  else .error .connectionError

/-! ## controller.py: constants (lines 16-34) -/

/-- controller.py:21: seconds between updates under normal conditions. -/
def REFRESH_INTERVAL : Int := 30

/-- controller.py:24: retry rate when first disconnected. -/
def RETRY_INTERVAL : Int := 10

/-- controller.py:27: timeout to stop retrying and reduce poll rate. -/
def RETRY_TIMEOUT : Int := 60

/-- controller.py:30: poll interval once disconnected for a long time. -/
def DISCONNECTED_INTERVAL : Int := 300

/-- controller.py:34: time to wait for the fireplace to start up or shut
down after a power command. -/
def ON_OFF_BUSY_WAIT_TIME : Int := 120

/-! ## controller.py: data model -/

/-- controller.py:36-57 `ControllerState`. -/
inductive ControllerState
  | BUSY
  | READY
  | NON_RESPONSIVE
  | DISCONNECTED
deriving DecidableEq, Repr

/-- controller.py:59-63 `Fan`. -/
inductive Fan
  | FLAME_EFFECT
  | AUTO
  | FAN_BOOST
deriving DecidableEq, Repr

/-- The `_system_settings` dict (controller.py:102), restricted to the
mutable appliance fields (IP address and UID never change through the paths
modelled here). -/
structure Settings where
  fireIsOn : Bool
  fanMode : Fan
  desiredTemp : Int
  currentTemp : Int
  hasNewTimers : Bool
deriving DecidableEq, Repr

/-- The mutable members of `Controller`: `_system_settings`, `_state`,
`_last_response` and `_busy_end_time` (controller.py:102, 117-119). -/
structure Controller where
  settings : Settings
  state : ControllerState
  lastResponse : Int
  busyEndTime : Int
deriving DecidableEq, Repr

/-- The `(state, value)` argument pairs `_set_system_state` is called with:
FIRE_IS_ON carries a Bool, DESIRED_TEMP an Int, FAN_MODE a Fan
(controller.py:65-74 `DictEntries`, restricted to the writable fields). -/
inductive FieldValue
  | FIRE_IS_ON (value : Bool)
  | DESIRED_TEMP (value : Int)
  | FAN_MODE (value : Fan)
deriving DecidableEq, Repr

/-- controller.py:358: `self._system_settings[state] == value`. -/
def Settings.matchesField (s : Settings) : FieldValue → Bool
  | .FIRE_IS_ON v => s.fireIsOn == v
  | .DESIRED_TEMP v => s.desiredTemp == v
  | .FAN_MODE v => s.fanMode == v

/-- controller.py:362: `self._system_settings[state] = value`. -/
def Settings.setField (s : Settings) : FieldValue → Settings
  | .FIRE_IS_ON v => { s with fireIsOn := v }
  | .DESIRED_TEMP v => { s with desiredTemp := v }
  | .FAN_MODE v => { s with fanMode := v }

/-! ## controller.py: _set_system_state (lines 355-458) -/

/-- Result of one `_set_system_state` call: the controller afterwards, the
commands it sent through the datagram (controller.py:411-449), in order, and
whether it invoked the immediate follow-up `_refresh_system` at
controller.py:452-453 (that nested refresh issues its own STATUS_PLEASE; its
effects are modelled separately by `refreshSystem`). -/
structure SetResult where
  ctrl : Controller
  sent : List CommandID
  refreshed : Bool
deriving DecidableEq, Repr

/-- The first command of the dispatch, controller.py:368-409.  For FAN_MODE
the branch reads `self._system_settings[state]` (lines 389, 398, 405) —
which line 362 has ALREADY overwritten with the requested value — so
`savedSettings.fanMode` here is the new target mode, not the prior mode. -/
def part1Command (savedSettings : Settings) : FieldValue → Option CommandID
  | .FIRE_IS_ON v => some (if v then CommandID.POWER_ON else CommandID.POWER_OFF)
  | .DESIRED_TEMP _ => some CommandID.NEW_SET_TEMP
  | .FAN_MODE v =>
      match v with
      | .AUTO =>
          if savedSettings.fanMode = Fan.FAN_BOOST then some CommandID.FAN_BOOST_OFF
          else some CommandID.FLAME_EFFECT_OFF
      | .FAN_BOOST =>
          if savedSettings.fanMode = Fan.FLAME_EFFECT then some CommandID.FLAME_EFFECT_OFF
          else none
      | .FLAME_EFFECT =>
          if savedSettings.fanMode = Fan.FAN_BOOST then some CommandID.FAN_BOOST_OFF
          else none

/-- controller.py:451-458, the tail of `_set_system_state`: when `sync` is
false the immediate refresh is invoked (for EVERY field, power included);
then, if the field was FIRE_IS_ON, the state becomes BUSY with
`busy_end_time = now + ON_OFF_BUSY_WAIT_TIME`. -/
def finishSet (c : Controller) (fv : FieldValue) (sync : Bool) (now : Int)
    (sent : List CommandID) : SetResult :=
  let refreshed := !sync
  match fv with
  | .FIRE_IS_ON _ =>
      let busy := { c with state := ControllerState.BUSY,
                           busyEndTime := now + ON_OFF_BUSY_WAIT_TIME }
      ⟨busy, sent, refreshed⟩
  | _ => ⟨c, sent, refreshed⟩

/-- controller.py:423-449, the second FAN_MODE command: for a target other
than AUTO, turn the target toggle on; a failed acknowledgement sets
NON_RESPONSIVE and returns at once (skipping lines 451-458). -/
def setPart2 (c : Controller) (fv : FieldValue) (sync : Bool)
    (ack : CommandID → Bool) (now : Int) (sent : List CommandID) : SetResult :=
  match fv with
  | .FAN_MODE v =>
      if v ≠ Fan.AUTO then
        let command :=
          if v = Fan.FAN_BOOST then CommandID.FAN_BOOST_ON
          else CommandID.FLAME_EFFECT_ON
        if ack command then
          finishSet { c with lastResponse := now } fv sync now (sent ++ [command])
        else ⟨{ c with state := ControllerState.NON_RESPONSIVE },
              sent ++ [command], false⟩
      else finishSet c fv sync now sent
  | _ => finishSet c fv sync now sent

/-- controller.py:355-458 `Controller._set_system_state`.  `ack command` says
whether the datagram exchange for `command` yielded the expected
acknowledgement (controller.py:414-415 / 442-443); on success
`_last_response` is set to now, on failure the state flips to NON_RESPONSIVE
and the dispatch aborts. -/
def setSystemState (c : Controller) (fv : FieldValue) (sync : Bool)
    (ack : CommandID → Bool) (now : Int) : SetResult :=
  if !sync && c.settings.matchesField fv then ⟨c, [], false⟩
  else
    let c1 := { c with settings := c.settings.setField fv }
    if c1.state ≠ ControllerState.READY then ⟨c1, [], false⟩
    else
      match part1Command c1.settings fv with
      | some command =>
          if ack command then
            setPart2 { c1 with lastResponse := now } fv sync ack now [command]
          else ⟨{ c1 with state := ControllerState.NON_RESPONSIVE }, [command], false⟩
      | none => setPart2 c1 fv sync ack now []

/-! ## controller.py: _request_status / _refresh_system (lines 239-338) -/

/-- The decoded STATUS payload fields `_refresh_system` reads from a valid
response (message.py:169-184 accessors used at controller.py:275-308). -/
structure StatusResponse where
  hasNewTimers : Bool
  fireIsOn : Bool
  fanBoostIsOn : Bool
  flameEffect : Bool
  desiredTemp : Int
  currentTemp : Int
deriving DecidableEq, Repr

/-- Outcome of `_request_status` (controller.py:323-338) as seen by
`_refresh_system`: either a response arrived whose identifier is STATUS
(`valid`, which also updates `_last_response`), or the exchange produced no
usable response (`invalid`: a response with the wrong identifier, the path
through controller.py:334-335). -/
inductive FetchOutcome
  | valid (resp : StatusResponse)
  | invalid
deriving DecidableEq, Repr

/-- Notifications pushed to the discovery collaborator. -/
inductive Notification
  | updated
  | reconnected
  | disconnected
deriving DecidableEq, Repr

/-- Result of one `_refresh_system` call: controller afterwards, the
notifications emitted (in order) and any commands sent by the
resynchronization `_set_system_state(..., sync=True)` calls. -/
structure RefreshResult where
  ctrl : Controller
  notifications : List Notification
  resyncSent : List CommandID
deriving DecidableEq, Repr

/-- controller.py:239-321 `Controller._refresh_system`.  The `notify`
parameter guards only the `controller_update` call at lines 290-291; the
`controller_disconnected` call at line 321 is unconditional.  In the
recovery branch (prior state not READY) the state is still not READY when
the three sync set calls run, so each of them stops at the not-READY guard
(controller.py:364-366) after rewriting the buffered value; the state
becomes READY at line 310 only when the reported power already matches. -/
def refreshSystem (c : Controller) (notify : Bool) (outcome : FetchOutcome)
    (ack : CommandID → Bool) (now : Int) : RefreshResult :=
  if c.state = ControllerState.BUSY ∧ now < c.busyEndTime then ⟨c, [], []⟩
  else
    let prior := c.state
    match outcome with
    | .valid r =>
        let c1 := { c with lastResponse := now }
        let c2 := { c1 with settings :=
          { c1.settings with hasNewTimers := r.hasNewTimers,
                             currentTemp := r.currentTemp } }
        if prior = ControllerState.READY then
          let fanMode :=
            if r.fanBoostIsOn then Fan.FAN_BOOST
            else if r.flameEffect then Fan.FLAME_EFFECT
            else Fan.AUTO
          let c3 := { c2 with settings :=
            { c2.settings with desiredTemp := r.desiredTemp,
                               fanMode := fanMode,
                               fireIsOn := r.fireIsOn } }
          ⟨c3, if notify then [Notification.updated] else [], []⟩
        else
          let s1 : SetResult :=
            if r.desiredTemp != c2.settings.desiredTemp then
              setSystemState c2 (FieldValue.DESIRED_TEMP c2.settings.desiredTemp)
                true ack now
            else ⟨c2, [], false⟩
          let c4 := s1.ctrl
          let s2 : SetResult :=
            if (r.fanBoostIsOn != (c4.settings.fanMode == Fan.FAN_BOOST)) ||
               (r.flameEffect != (c4.settings.fanMode == Fan.FLAME_EFFECT)) then
              setSystemState c4 (FieldValue.FAN_MODE c4.settings.fanMode)
                true ack now
            else ⟨c4, [], false⟩
          let c5 := s2.ctrl
          let fin : Controller × List CommandID :=
            if r.fireIsOn != c5.settings.fireIsOn then
              let s3 := setSystemState c5
                (FieldValue.FIRE_IS_ON c5.settings.fireIsOn) true ack now
              (s3.ctrl, s3.sent)
            else ({ c5 with state := ControllerState.READY }, [])
          let notifs :=
            if prior = ControllerState.DISCONNECTED then [Notification.reconnected]
            else []
          ⟨fin.1, notifs, s1.sent ++ s2.sent ++ fin.2⟩
    | .invalid =>
        let c1 := { c with state := ControllerState.NON_RESPONSIVE }
        if now - c1.lastResponse < RETRY_TIMEOUT then
          ⟨{ c1 with state := ControllerState.NON_RESPONSIVE }, [], []⟩
        else
          ⟨{ c1 with state := ControllerState.DISCONNECTED },
            [Notification.disconnected], []⟩

/-- controller.py:150-158: the poll loop sleep after a refresh, by state. -/
def pollSleepTime (c : Controller) (now : Int) : Int :=
  match c.state with
  | .READY => REFRESH_INTERVAL
  | .NON_RESPONSIVE => RETRY_INTERVAL
  | .DISCONNECTED => DISCONNECTED_INTERVAL
  | .BUSY => max (c.busyEndTime - now) 0

/-- A run of the poll loop (controller.py:136-159): fold `_refresh_system`
(with `notify` defaulted true) over successive `(outcome, time)` poll ticks,
accumulating the notifications emitted. -/
def pollRun (c : Controller) (ack : CommandID → Bool)
    (steps : List (FetchOutcome × Int)) : Controller × List Notification :=
  steps.foldl
    (fun acc step =>
      let r := refreshSystem acc.1 true step.1 ack step.2
      (r.ctrl, acc.2 ++ r.notifications))
    (c, [])

/-! ## controller.py: initialize (lines 111-130) and getters -/

/-- Result of `initialize`: the controller afterwards, whether the recurring
poll task was started (controller.py:130), and the notifications emitted by
the initial refresh. -/
structure InitResult where
  ctrl : Controller
  pollStarted : Bool
  notifications : List Notification
deriving DecidableEq, Repr

/-- controller.py:111-130 `Controller.initialize`: state READY,
`_last_response = 0.0`, `_busy_end_time = 0.0`, one refresh with
`notify=False`, then the poll task is created unconditionally — there is no
check of the refresh outcome between lines 125 and 130. -/
def initializeCtrl (settings0 : Settings) (outcome : FetchOutcome)
    (ack : CommandID → Bool) (now : Int) : InitResult :=
  let c : Controller := ⟨settings0, ControllerState.READY, 0, 0⟩
  let r := refreshSystem c false outcome ack now
  ⟨r.ctrl, true, r.notifications⟩

/-- controller.py:180-183 `Controller.is_on`:
`self._get_system_state(DictEntries.FIRE_IS_ON) or None` — the Python
`or None` maps a falsy cached value to None and returns the value itself
otherwise. -/
def Controller.is_on (c : Controller) : Option Bool :=
  if c.settings.fireIsOn then some c.settings.fireIsOn else none

/-- controller.py:203-207 `Controller.desired_temp`:
`float(self._get_system_state(DictEntries.DESIRED_TEMP)) or None`. -/
def Controller.desired_temp (c : Controller) : Option ℚ :=
  if (c.settings.desiredTemp : ℚ) = 0 then none
  else some (c.settings.desiredTemp : ℚ)

/-- controller.py:224-227 `Controller.current_temp`:
`float(self._get_system_state(DictEntries.CURRENT_TEMP)) or None`. -/
def Controller.current_temp (c : Controller) : Option ℚ :=
  if (c.settings.currentTemp : ℚ) = 0 then none
  else some (c.settings.currentTemp : ℚ)

/-! ## Sample values used by witnesses and counterexamples -/

/-- A sample settings record: appliance off, AUTO, desired 19, current 16. -/
def sampleSettings : Settings := ⟨false, Fan.AUTO, 19, 16, false⟩

/-- A READY controller over `sampleSettings` with zeroed timestamps (the
values `initialize` starts from). -/
def cReady : Controller := ⟨sampleSettings, ControllerState.READY, 0, 0⟩

/-- A READY controller whose cached fan mode is FAN_BOOST. -/
def cBoostReady : Controller :=
  ⟨⟨true, Fan.FAN_BOOST, 19, 16, false⟩, ControllerState.READY, 0, 0⟩

/-- A READY controller whose cached power flag is false and whose cached
temperatures are 0. -/
def cAllZero : Controller :=
  ⟨⟨false, Fan.AUTO, 0, 0, false⟩, ControllerState.READY, 0, 0⟩

end Pescea

namespace Pescea

/-- Decidable equality for `Except`, used to evaluate the codec and
transport functions at concrete inputs. -/
instance {ε α : Type} [DecidableEq ε] [DecidableEq α] :
    DecidableEq (Except ε α) := fun a b =>
  match a, b with
  | .ok x, .ok y =>
      if h : x = y then isTrue (by rw [h]) else isFalse (by simp [h])
  | .error x, .error y =>
      if h : x = y then isTrue (by rw [h]) else isFalse (by simp [h])
  | .ok _, .error _ => isFalse (by simp)
  | .error _, .ok _ => isFalse (by simp)

/-! ## Claim theorems -/

/-- Claim C1: the spec says decoding the 15-byte buffer produced by encoding
any command with a valid payload recovers the identifier and payload.  On
this code the decode branch of `FireplaceMessage.__init__` fails on every
input — its first statement passes a spurious argument to
`_initialise_data`, and even past that its length check compares a bound
method with 15 — so the round-trip recovers nothing: for every encodable
command the decode of the encoded buffer is an error. -/
theorem C1_decode_of_encode_always_fails (cmd : CommandID) (t : Option Int)
    (bs : List Nat) (_h : FireplaceMessage.encode cmd t = Except.ok bs) :
    FireplaceMessage.decode bs = Except.error DecodeError.initDataArity :=
  rfl

/-- Concrete instance of C1 at NEW_SET_TEMP with temperature 4: the encode
succeeds and produces the expected wire bytes, and decoding them fails. -/
theorem C1_decode_of_encode_always_fails_witness :
    FireplaceMessage.encode CommandID.NEW_SET_TEMP (some 4)
        = Except.ok [71, 87, 1, 4, 0, 0, 0, 0, 0, 0, 0, 0, 0, 92, 70]
    ∧ FireplaceMessage.decode [71, 87, 1, 4, 0, 0, 0, 0, 0, 0, 0, 0, 0, 92, 70]
        = Except.error DecodeError.initDataArity :=
  ⟨by decide,
   C1_decode_of_encode_always_fails CommandID.NEW_SET_TEMP (some 4)
     [71, 87, 1, 4, 0, 0, 0, 0, 0, 0, 0, 0, 0, 92, 70] (by decide)⟩

/-- Claim C7: the spec requires encoding NEW_SET_TEMP with a temperature
below 4 or above 30 to fail.  The encode branch performs no such comparison:
3 and 31 encode as successfully as the boundary values 4 and 30 (only the
bytearray item range 0..255 is enforced, by the interpreter). -/
theorem C7_encode_accepts_out_of_range_temps :
    FireplaceMessage.encode CommandID.NEW_SET_TEMP (some 3)
        = Except.ok (buildMessage 87 1 3)
    ∧ FireplaceMessage.encode CommandID.NEW_SET_TEMP (some 31)
        = Except.ok (buildMessage 87 1 31)
    ∧ FireplaceMessage.encode CommandID.NEW_SET_TEMP (some 4)
        = Except.ok (buildMessage 87 1 4)
    ∧ FireplaceMessage.encode CommandID.NEW_SET_TEMP (some 30)
        = Except.ok (buildMessage 87 1 30) := by
  decide

/-- Claim C8: the spec says an I_AM_A_FIRE payload carries a 4-byte
big-endian serial and a 2-byte big-endian PIN, both round-tripping exactly.
The slices the source takes are three bytes and one byte respectively, so a
serial of 1 (fourth byte set) reads back as 0, a serial of 16777216 reads
back as 65536, and a PIN of 1 (second byte set) reads back as 0 — and the
decode branch that would perform the extraction errors on every input
anyway. -/
theorem C8_i_am_a_fire_slices_wrong_widths :
    iAmAFireSerial (iAmAFireFrame 1 0) = 0
    ∧ iAmAFireSerial (iAmAFireFrame 16777216 0) = 65536
    ∧ iAmAFirePin (iAmAFireFrame 0 1) = 0
    ∧ FireplaceMessage.decode (iAmAFireFrame 1 0)
        = Except.error DecodeError.initDataArity := by
  decide

/-- Claim C5: the spec says a broadcast send that accumulated at least one
valid response by the time the timeout elapses returns the map as a success
and fails with a connection error only on zero valid responses.  For
SEARCH_FOR_FIRES the receive path never closes the transport, so the window
always ends by timeout and `send_command` raises the connection error even
though two distinct valid responses were accumulated. -/
theorem C5_broadcast_discards_collected_responses :
    (processEvents CommandID.SEARCH_FOR_FIRES ⟨[], false⟩
        [(1, Except.ok ResponseID.I_AM_A_FIRE),
         (2, Except.ok ResponseID.I_AM_A_FIRE)]).responses
      = [(1, ResponseID.I_AM_A_FIRE), (2, ResponseID.I_AM_A_FIRE)]
    ∧ sendCommand CommandID.SEARCH_FOR_FIRES
        [(1, Except.ok ResponseID.I_AM_A_FIRE),
         (2, Except.ok ResponseID.I_AM_A_FIRE)]
      = Except.error SendError.connectionError := by
  decide

/-- Instance refuting claim C6 as stated: a non-broadcast STATUS_PLEASE
exchange whose only arrival decodes to the wrong identifier (POWER_ON_ACK).
The claim says the frame is discarded, never returned, and the wait
continues; the code stores it, closes the transport, and returns it to the
caller as the exchange result. -/
theorem C6_mismatch_returned_counterexample :
    sendCommand CommandID.STATUS_PLEASE [(1, Except.ok ResponseID.POWER_ON_ACK)]
      = Except.ok [(1, ResponseID.POWER_ON_ACK)] := by
  decide

/-- Claim C6 amended: in a non-broadcast exchange an inbound datagram whose
decoded identifier mismatches the expected response is logged, but it is
still stored in the response map and ends the wait, and it is returned to
the caller (which performs its own identifier check); only an undecodable
datagram is dropped, leaving the wait running to the deadline. -/
theorem C6_mismatch_logged_but_returned (command : CommandID)
    (hb : command ≠ CommandID.SEARCH_FOR_FIRES) (addr : Nat) (rid : ResponseID)
    (hm : rid ≠ expected_response command) (e : DecodeError) :
    (datagramReceived command ⟨[], false⟩ addr (Except.ok rid)).2 = true
    ∧ sendCommand command [(addr, Except.ok rid)] = Except.ok [(addr, rid)]
    ∧ sendCommand command [(addr, Except.error e)]
        = Except.error SendError.connectionError := by
  refine ⟨?_, ?_, ?_⟩
  · simp [datagramReceived, hm]
  · simp [sendCommand, processEvents, datagramReceived, updateAssoc, hb]
  · simp [sendCommand, processEvents, datagramReceived]

/-- Concrete instance of the amended C6 at STATUS_PLEASE with a
POWER_ON_ACK arrival from address 1. -/
theorem C6_mismatch_logged_but_returned_witness :
    (datagramReceived CommandID.STATUS_PLEASE ⟨[], false⟩ 1
        (Except.ok ResponseID.POWER_ON_ACK)).2 = true
    ∧ sendCommand CommandID.STATUS_PLEASE [(1, Except.ok ResponseID.POWER_ON_ACK)]
        = Except.ok [(1, ResponseID.POWER_ON_ACK)]
    ∧ sendCommand CommandID.STATUS_PLEASE [(1, Except.error DecodeError.initDataArity)]
        = Except.error SendError.connectionError :=
  C6_mismatch_logged_but_returned CommandID.STATUS_PLEASE (by decide) 1
    ResponseID.POWER_ON_ACK (by decide) DecodeError.initDataArity

/-- Claim C2: the spec says a READY fan change FAN_BOOST to FLAME_EFFECT
issues exactly two commands, FAN_BOOST_OFF then FLAME_EFFECT_ON.  Because
`_set_system_state` overwrites the cached fan mode with the target before
comparing it (controller.py:362 before :405), the comparison meant to detect
the active FAN_BOOST toggle reads the new target instead and the boost-off
step is skipped: with every acknowledgement succeeding, the dispatch sends
the single command FLAME_EFFECT_ON. -/
theorem C2_boost_to_flame_sends_one_command (c : Controller)
    (ack : CommandID → Bool) (now : Int)
    (hst : c.state = ControllerState.READY)
    (hfan : c.settings.fanMode = Fan.FAN_BOOST)
    (hack : ∀ cmd, ack cmd = true) :
    (setSystemState c (FieldValue.FAN_MODE Fan.FLAME_EFFECT) false ack now).sent
      = [CommandID.FLAME_EFFECT_ON] := by
  simp [setSystemState, Settings.matchesField, Settings.setField, hfan, hst,
        part1Command, setPart2, finishSet, hack]

/-- Concrete instance of C2: a READY controller cached at FAN_BOOST,
switched to FLAME_EFFECT with all acknowledgements succeeding, sends only
FLAME_EFFECT_ON. -/
theorem C2_boost_to_flame_sends_one_command_witness :
    (setSystemState cBoostReady (FieldValue.FAN_MODE Fan.FLAME_EFFECT) false
        (fun _ => true) 100).sent = [CommandID.FLAME_EFFECT_ON] :=
  C2_boost_to_flame_sends_one_command cBoostReady (fun _ => true) 100 rfl rfl
    (fun _ => rfl)

/-- Instance refuting claim C3 as stated: a READY controller acknowledging a
power-on set still runs the immediate follow-up refresh
(controller.py:452-453 precedes the BUSY transition at :456-458), so the
refresh is performed, not skipped. -/
theorem C3_power_set_still_refreshes_counterexample :
    (setSystemState cReady (FieldValue.FIRE_IS_ON true) false (fun _ => true)
        100).refreshed = true
    ∧ (setSystemState cReady (FieldValue.FIRE_IS_ON true) false (fun _ => true)
        100).ctrl.state = ControllerState.BUSY := by
  decide

/-- Claim C3 amended: a successful acknowledged power set while READY enters
BUSY with `busy_until_time = now + settle`, but the immediate follow-up
refresh is still performed (before the BUSY transition), exactly as for the
other fields. -/
theorem C3_power_set_busy_after_refresh (c : Controller)
    (ack : CommandID → Bool) (now : Int) (v : Bool)
    (hst : c.state = ControllerState.READY)
    (hdiff : c.settings.fireIsOn ≠ v)
    (hack : ∀ cmd, ack cmd = true) :
    (setSystemState c (FieldValue.FIRE_IS_ON v) false ack now).ctrl.state
        = ControllerState.BUSY
    ∧ (setSystemState c (FieldValue.FIRE_IS_ON v) false ack now).ctrl.busyEndTime
        = now + ON_OFF_BUSY_WAIT_TIME
    ∧ (setSystemState c (FieldValue.FIRE_IS_ON v) false ack now).refreshed = true := by
  have hb : (c.settings.fireIsOn == v) = false := by
    cases h1 : c.settings.fireIsOn <;> cases h2 : v <;> simp_all
  simp [setSystemState, Settings.matchesField, Settings.setField, hb, hst,
        part1Command, setPart2, finishSet, hack]

/-- Concrete instance of the amended C3 at a READY controller switched on at
time 100. -/
theorem C3_power_set_busy_after_refresh_witness :
    (setSystemState cReady (FieldValue.FIRE_IS_ON true) false (fun _ => true)
        100).ctrl.state = ControllerState.BUSY
    ∧ (setSystemState cReady (FieldValue.FIRE_IS_ON true) false (fun _ => true)
        100).ctrl.busyEndTime = 100 + ON_OFF_BUSY_WAIT_TIME
    ∧ (setSystemState cReady (FieldValue.FIRE_IS_ON true) false (fun _ => true)
        100).refreshed = true :=
  C3_power_set_busy_after_refresh cReady (fun _ => true) 100 true rfl
    (by decide) (fun _ => rfl)

/-- Instance refuting claim C4 as stated: starting READY with
`last_response = 0`, two consecutive failed polls at times 61 and 62 (both
past the 60-second retry window) each emit a disconnected notification — the
second while the controller is already DISCONNECTED — so the notification is
not emitted exactly once per disconnection. -/
theorem C4_notifies_every_failed_poll_counterexample :
    (pollRun cReady (fun _ => true)
        [(FetchOutcome.invalid, 61), (FetchOutcome.invalid, 62)]).2
      = [Notification.disconnected, Notification.disconnected]
    ∧ (pollRun cReady (fun _ => true) [(FetchOutcome.invalid, 61)]).1.state
      = ControllerState.DISCONNECTED := by
  decide

/-- Claim C4 amended: each refresh that obtains no valid status sets
NON_RESPONSIVE while `now - last_response_time` is within the retry-timeout
window and DISCONNECTED once the window has elapsed; the disconnected
notification is emitted on every such failed refresh past the window — once
per failed poll while DISCONNECTED — not once per disconnection. -/
theorem C4_failed_refresh_transitions (c : Controller) (ack : CommandID → Bool)
    (now : Int)
    (hguard : ¬(c.state = ControllerState.BUSY ∧ now < c.busyEndTime)) :
    (now - c.lastResponse < RETRY_TIMEOUT →
      (refreshSystem c true FetchOutcome.invalid ack now).ctrl.state
          = ControllerState.NON_RESPONSIVE
      ∧ (refreshSystem c true FetchOutcome.invalid ack now).notifications = [])
    ∧ (RETRY_TIMEOUT ≤ now - c.lastResponse →
      (refreshSystem c true FetchOutcome.invalid ack now).ctrl.state
          = ControllerState.DISCONNECTED
      ∧ (refreshSystem c true FetchOutcome.invalid ack now).notifications
          = [Notification.disconnected]) := by
  constructor
  · intro hlt
    simp [refreshSystem, hguard, hlt]
  · intro hge
    simp [refreshSystem, hguard, not_lt.mpr hge]

/-- Concrete instances of the amended C4: a failed poll at time 10 turns the
READY controller NON_RESPONSIVE silently; a failed poll at time 61 turns it
DISCONNECTED with one disconnected notification. -/
theorem C4_failed_refresh_transitions_witness :
    (refreshSystem cReady true FetchOutcome.invalid (fun _ => true) 10).ctrl.state
        = ControllerState.NON_RESPONSIVE
    ∧ (refreshSystem cReady true FetchOutcome.invalid (fun _ => true) 61).ctrl.state
        = ControllerState.DISCONNECTED
    ∧ (refreshSystem cReady true FetchOutcome.invalid (fun _ => true) 61).notifications
        = [Notification.disconnected] :=
  ⟨((C4_failed_refresh_transitions cReady (fun _ => true) 10 (by decide)).1
      (by norm_num [cReady, sampleSettings, RETRY_TIMEOUT])).1,
   ((C4_failed_refresh_transitions cReady (fun _ => true) 61 (by decide)).2
      (by norm_num [cReady, sampleSettings, RETRY_TIMEOUT])).1,
   ((C4_failed_refresh_transitions cReady (fun _ => true) 61 (by decide)).2
      (by norm_num [cReady, sampleSettings, RETRY_TIMEOUT])).2⟩

/-- Claim C9: the spec says `initialize` fails outright to its caller if the
first status fetch fails.  When the first fetch yields a response with an
unexpected identifier, `_refresh_system` absorbs the failure into a state
transition instead: `initialize` completes, leaves the controller
DISCONNECTED, emits the disconnected notification (despite `notify=False`,
which guards only the update notification), and starts the recurring poll
task anyway. -/
theorem C9_initialize_starts_poll_despite_failed_fetch :
    (initializeCtrl sampleSettings FetchOutcome.invalid (fun _ => true)
        1000).pollStarted = true
    ∧ (initializeCtrl sampleSettings FetchOutcome.invalid (fun _ => true)
        1000).ctrl.state = ControllerState.DISCONNECTED
    ∧ (initializeCtrl sampleSettings FetchOutcome.invalid (fun _ => true)
        1000).notifications = [Notification.disconnected] := by
  decide

/-- Claim C10: the public getters coerce falsy cached values to None: a
cached power flag of false makes `is_on` return none (and `is_on` never
returns some false), and a cached desired or current temperature of 0 makes
the corresponding getter return none rather than 0. -/
theorem C10_getters_coerce_falsy_to_none (c : Controller) :
    (c.settings.fireIsOn = false → c.is_on = none)
    ∧ c.is_on ≠ some false
    ∧ (c.settings.desiredTemp = 0 → c.desired_temp = none)
    ∧ (c.settings.currentTemp = 0 → c.current_temp = none) := by
  refine ⟨?_, ?_, ?_, ?_⟩
  · intro h
    simp [Controller.is_on, h]
  · cases h : c.settings.fireIsOn <;> simp [Controller.is_on, h]
  · intro h
    simp [Controller.desired_temp, h]
  · intro h
    simp [Controller.current_temp, h]

/-- Concrete instance of C10 at a controller whose cached power flag is
false and whose cached temperatures are both 0. -/
theorem C10_getters_coerce_falsy_to_none_witness :
    cAllZero.is_on = none
    ∧ cAllZero.desired_temp = none
    ∧ cAllZero.current_temp = none :=
  ⟨(C10_getters_coerce_falsy_to_none cAllZero).1 rfl,
   (C10_getters_coerce_falsy_to_none cAllZero).2.2.1 rfl,
   (C10_getters_coerce_falsy_to_none cAllZero).2.2.2 rfl⟩

end Pescea
